import Mathlib

/-!
Verification of the galaxy UV/IR emission analysis script
(Galaxy-emission-plot.py).

The script is a linear data-reduction pipeline over two column-oriented
tables per galaxy:

* an emission table with columns
  (RA, Dec, Sum UV, Npix UV, Sum IR, Npix IR, Galactocentric Radius);
* a background table with columns
  (Mean UV, StDev UV, Mean IR, StDev IR).

We embed the numeric pipeline shallowly: numpy float arrays become
`List ℝ`, vectorized operations become `List.map` / `List.zip`, and the
float arithmetic is idealized as real arithmetic.  File reading is
factored out: the function `data` is modelled as a function of the file
contents (a `GalaxyFiles` record).
-/

namespace GalaxyEmission

noncomputable section

/-- np.log10. -/
def log10 (x : ℝ) : ℝ := Real.logb 10 x

/-- The script's recurring pattern sum(arr)/len(arr). -/
def mean (xs : List ℝ) : ℝ := xs.sum / xs.length

/-- top = sum((xarr-xmean)*(yarr-ymean)) in corr_coeff, with the numpy
elementwise product rendered as a zip. -/
def corr_top (xarr yarr : List ℝ) : ℝ :=
  ((xarr.zip yarr).map (fun p => (p.1 - mean xarr) * (p.2 - mean yarr))).sum

/-- bottom = np.sqrt(sum((xarr-xmean)**2)*sum((yarr-ymean)**2)) in
corr_coeff. -/
def corr_bottom (xarr yarr : List ℝ) : ℝ :=
  Real.sqrt ((xarr.map (fun a => (a - mean xarr) ^ 2)).sum *
    (yarr.map (fun b => (b - mean yarr) ^ 2)).sum)

/-- corr_coeff(xarr, yarr) from the script: top/bottom. -/
def corr_coeff (xarr yarr : List ℝ) : ℝ :=
  corr_top xarr yarr / corr_bottom xarr yarr

/-- The definitional Pearson correlation coefficient, written from the
spec's words over an indexed family of n sample points:
sum((x-xmean)*(y-ymean)) / sqrt(sum((x-xmean)^2) * sum((y-ymean)^2))
with xmean and ymean the arithmetic means. -/
def pearson_spec (n : ℕ) (x y : Fin n → ℝ) : ℝ :=
  (∑ i, (x i - (∑ j, x j) / n) * (y i - (∑ j, y j) / n)) /
    Real.sqrt ((∑ i, (x i - (∑ j, x j) / n) ^ 2) *
      (∑ i, (y i - (∑ j, y j) / n) ^ 2))

/-- A list sum is the sum of its entries indexed by Fin. -/
theorem sum_map_get (f : ℝ → ℝ) :
    ∀ xs : List ℝ, (xs.map f).sum = ∑ i : Fin xs.length, f (xs.get i)
  | [] => by simp
  | a :: l => by
    rw [List.map_cons, List.sum_cons, sum_map_get f l]
    show f a + ∑ i : Fin l.length, f (l.get i) =
      ∑ i : Fin (l.length + 1), f ((a :: l).get i)
    rw [Fin.sum_univ_succ]
    simp

/-- Sum of an elementwise combination of two equal-length lists,
indexed by Fin. -/
theorem sum_zip_map (f : ℝ → ℝ → ℝ) :
    ∀ (xs ys : List ℝ) (h : xs.length = ys.length),
      ((xs.zip ys).map (fun p => f p.1 p.2)).sum =
        ∑ i : Fin xs.length, f (xs.get i) (ys.get (Fin.cast h i))
  | [], [], _ => by simp
  | a :: l, b :: m, h => by
    have h' : l.length = m.length := by simpa using h
    rw [List.zip_cons_cons, List.map_cons, List.sum_cons, sum_zip_map f l m h']
    show f a b + ∑ i : Fin l.length, f (l.get i) (m.get (Fin.cast h' i)) =
      ∑ i : Fin (l.length + 1), f ((a :: l).get i) ((b :: m).get (Fin.cast h i))
    rw [Fin.sum_univ_succ]
    simp [Fin.cast]

theorem list_sum_eq_fin_sum (xs : List ℝ) :
    xs.sum = ∑ i : Fin xs.length, xs.get i := by
  have h := sum_map_get id xs
  simp only [List.map_id, id_eq] at h
  exact h

/-- C1: for numeric arrays of equal positive length, corr_coeff equals the
definitional Pearson correlation coefficient
sum((x-xmean)*(y-ymean)) / sqrt(sum((x-xmean)^2) * sum((y-ymean)^2))
with xmean, ymean the arithmetic means. -/
theorem corr_coeff_eq_pearson_spec (xs ys : List ℝ)
    (h : xs.length = ys.length) (_hp : 0 < xs.length) :
    corr_coeff xs ys =
      pearson_spec xs.length (fun i => xs.get i)
        (fun i => ys.get (Fin.cast h i)) := by
  have hxm : (∑ i : Fin xs.length, xs.get i) / (xs.length : ℝ) = mean xs := by
    rw [mean, list_sum_eq_fin_sum]
  have hysum : (∑ i : Fin xs.length, ys.get (Fin.cast h i)) = ys.sum := by
    rw [Fin.sum_congr' _ h, ← list_sum_eq_fin_sum]
  have hym :
      (∑ i : Fin xs.length, ys.get (Fin.cast h i)) / (xs.length : ℝ) =
        mean ys := by
    rw [mean, hysum, h]
  rw [corr_coeff, pearson_spec, corr_top, corr_bottom]
  rw [sum_zip_map (fun a b => (a - mean xs) * (b - mean ys)) xs ys h]
  rw [sum_map_get (fun a => (a - mean xs) ^ 2) xs,
    sum_map_get (fun b => (b - mean ys) ^ 2) ys]
  rw [← Fin.sum_congr' (fun i : Fin ys.length => (ys.get i - mean ys) ^ 2) h]
  simp only [hxm, hym]

/-- C1 witness at a concrete pair of length-2 arrays. -/
theorem corr_coeff_eq_pearson_spec_witness :
    corr_coeff [(1 : ℝ), 2] [3, 5] =
      pearson_spec ([(1 : ℝ), 2]).length (fun i => ([(1 : ℝ), 2]).get i)
        (fun i => ([(3 : ℝ), 5]).get (Fin.cast rfl i)) :=
  corr_coeff_eq_pearson_spec [(1 : ℝ), 2] [3, 5] rfl (by decide)

/-- One row of the <galaxy>_emission_npix.txt table: Right Ascension,
Declination, Sum UV, Npix UV, Sum IR, Npix IR, Galactocentric Radius. -/
structure EmissionRow where
  ra : ℝ
  dec : ℝ
  sumUV : ℝ
  npixUV : ℝ
  sumIR : ℝ
  npixIR : ℝ
  radius : ℝ

/-- One row of the <galaxy>_Stdev_mean.txt background table:
Mean UV, StDev UV, Mean IR, StDev IR. -/
structure StdevRow where
  meanUV : ℝ
  stdevUV : ℝ
  meanIR : ℝ
  stdevIR : ℝ

/-- The contents of the two files the function data(galaxy) reads for one
galaxy (file input is factored out of the shallow embedding). -/
structure GalaxyFiles where
  emission : List EmissionRow
  stdevs : List StdevRow

/-- UV_bckg_mean = sum(stdevs[:,0])/len(stdevs[:,0]). -/
def UV_bckg_mean (stdevs : List StdevRow) : ℝ :=
  mean (stdevs.map StdevRow.meanUV)

/-- IR_bckg_mean = sum(stdevs[:,2])/len(stdevs[:,2]). -/
def IR_bckg_mean (stdevs : List StdevRow) : ℝ :=
  mean (stdevs.map StdevRow.meanIR)

/-- data[:,2] after the in-place subtraction
data[:,2] -= UV_bckg_mean*data[:,3]. -/
def uv_subtracted (g : GalaxyFiles) : List ℝ :=
  g.emission.map (fun row => row.sumUV - UV_bckg_mean g.stdevs * row.npixUV)

/-- data[:,4] after the in-place subtraction
data[:,4] -= IR_bckg_mean*data[:,5]. -/
def ir_subtracted (g : GalaxyFiles) : List ℝ :=
  g.emission.map (fun row => row.sumIR - IR_bckg_mean g.stdevs * row.npixIR)

/-- UV_unc_perpix = (sum(stdevs[:,1])/len(stdevs[:,1]))/UV_bckg_mean. -/
def UV_unc_perpix (stdevs : List StdevRow) : ℝ :=
  mean (stdevs.map StdevRow.stdevUV) / UV_bckg_mean stdevs

/-- IR_unc_perpix = (sum(stdevs[:,3])/len(stdevs[:,3]))/IR_bckg_mean. -/
def IR_unc_perpix (stdevs : List StdevRow) : ℝ :=
  mean (stdevs.map StdevRow.stdevIR) / IR_bckg_mean stdevs

/-- UV_perc_unc = (np.sqrt(data[:,3]))*UV_unc_perpix (column 3 is the
untouched Npix UV column). -/
def UV_perc_unc (g : GalaxyFiles) : List ℝ :=
  g.emission.map (fun row => Real.sqrt row.npixUV * UV_unc_perpix g.stdevs)

/-- IR_perc_unc = (np.sqrt(data[:,5]))*IR_unc_perpix. -/
def IR_perc_unc (g : GalaxyFiles) : List ℝ :=
  g.emission.map (fun row => Real.sqrt row.npixIR * IR_unc_perpix g.stdevs)

/-- The fixed UV calibration factor (3.365*(10**(-5)))/(np.pi*5**2). -/
def UV_cal : ℝ := 3.365 * (10 : ℝ) ^ (-5 : ℤ) / (Real.pi * 5 ^ 2)

/-- The fixed IR calibration factor (10**6)/(4.25*10**10). -/
def IR_cal : ℝ := (10 : ℝ) ^ 6 / (4.25 * (10 : ℝ) ^ 10)

/-- data[:,2] after the in-place scaling data[:,2] *= UV_cal. -/
def uv_flux (g : GalaxyFiles) : List ℝ :=
  (uv_subtracted g).map (fun v => v * UV_cal)

/-- data[:,4] after the in-place scaling data[:,4] *= IR_cal. -/
def ir_flux (g : GalaxyFiles) : List ℝ :=
  (ir_subtracted g).map (fun v => v * IR_cal)

/-- UV_uncertainty = np.sqrt((UV_perc_unc**2)+(0.03**2)). -/
def UV_uncertainty (g : GalaxyFiles) : List ℝ :=
  (UV_perc_unc g).map (fun u => Real.sqrt (u ^ 2 + (0.03 : ℝ) ^ 2))

/-- IR_uncertainty = np.sqrt((IR_perc_unc**2)+(0.04**2)). -/
def IR_uncertainty (g : GalaxyFiles) : List ℝ :=
  (IR_perc_unc g).map (fun u => Real.sqrt (u ^ 2 + (0.04 : ℝ) ^ 2))

/-- log_UV_unc = (1/np.log(10))*UV_uncertainty. -/
def log_UV_unc (g : GalaxyFiles) : List ℝ :=
  (UV_uncertainty g).map (fun u => 1 / Real.log 10 * u)

/-- log_IR_unc = (1/np.log(10))*IR_uncertainty. -/
def log_IR_unc (g : GalaxyFiles) : List ℝ :=
  (IR_uncertainty g).map (fun u => 1 / Real.log 10 * u)

/-- The untouched galactocentric radius column data[:,6]. -/
def radii (g : GalaxyFiles) : List ℝ :=
  g.emission.map EmissionRow.radius

/-- data(galaxy) returns [data[:,2], data[:,4], data[:,6], log_UV_unc,
log_IR_unc] after the mutations above. -/
def data (g : GalaxyFiles) : List (List ℝ) :=
  [uv_flux g, ir_flux g, radii g, log_UV_unc g, log_IR_unc g]

/-- C3: data subtracts the background from each region's raw sum as
(mean background level) * (pixel count): the UV sum column loses
(mean of the UV background means) * Npix UV, the IR sum column loses
(mean of the IR background means) * Npix IR, and both happen before the
calibration scaling in the returned columns. -/
theorem background_subtraction (g : GalaxyFiles) :
    uv_subtracted g =
      g.emission.map (fun row =>
        row.sumUV -
          (g.stdevs.map StdevRow.meanUV).sum / (g.stdevs.length : ℝ) *
            row.npixUV) ∧
    ir_subtracted g =
      g.emission.map (fun row =>
        row.sumIR -
          (g.stdevs.map StdevRow.meanIR).sum / (g.stdevs.length : ℝ) *
            row.npixIR) ∧
    data g = [(uv_subtracted g).map (fun v => v * UV_cal),
      (ir_subtracted g).map (fun v => v * IR_cal),
      radii g, log_UV_unc g, log_IR_unc g] := by
  refine ⟨?_, ?_, rfl⟩ <;>
    simp [uv_subtracted, ir_subtracted, UV_bckg_mean, IR_bckg_mean, mean]

/-- C4: after background subtraction, the UV column is scaled by the fixed
constant 3.365e-5/(pi*5^2) and the IR column by the fixed constant
1e6/4.25e10; the constants do not depend on the input. -/
theorem calibration_constants (g : GalaxyFiles) :
    (data g).getD 0 [] =
      (uv_subtracted g).map
        (fun v => v * (3.365 * (10 : ℝ) ^ (-5 : ℤ) / (Real.pi * 5 ^ 2))) ∧
    (data g).getD 1 [] =
      (ir_subtracted g).map
        (fun v => v * ((10 : ℝ) ^ 6 / (4.25 * (10 : ℝ) ^ 10))) := by
  constructor <;> simp [data, uv_flux, ir_flux, UV_cal, IR_cal]

/-- C5: the fractional uncertainty of each region is sqrt(pixel count)
times the per-pixel uncertainty (mean background standard deviation over
mean background level), combined in quadrature with the fixed fractional
calibration uncertainty 0.03 for UV and 0.04 for IR. -/
theorem uncertainty_propagation (g : GalaxyFiles) :
    UV_uncertainty g =
      g.emission.map (fun row =>
        Real.sqrt ((Real.sqrt row.npixUV *
            (mean (g.stdevs.map StdevRow.stdevUV) /
              mean (g.stdevs.map StdevRow.meanUV))) ^ 2 +
          (0.03 : ℝ) ^ 2)) ∧
    IR_uncertainty g =
      g.emission.map (fun row =>
        Real.sqrt ((Real.sqrt row.npixIR *
            (mean (g.stdevs.map StdevRow.stdevIR) /
              mean (g.stdevs.map StdevRow.meanIR))) ^ 2 +
          (0.04 : ℝ) ^ 2)) := by
  constructor <;>
    simp [UV_uncertainty, IR_uncertainty, UV_perc_unc, IR_perc_unc,
      UV_unc_perpix, IR_unc_perpix, UV_bckg_mean, IR_bckg_mean,
      List.map_map, Function.comp]

/-- C6: the linear uncertainties are converted to log space by the factor
1/ln(10) for both bands, and the log-space uncertainties are the last two
elements of the five-element list returned by data. -/
theorem log_space_uncertainties (g : GalaxyFiles) :
    (data g).getD 3 [] = (UV_uncertainty g).map (fun u => 1 / Real.log 10 * u) ∧
    (data g).getD 4 [] = (IR_uncertainty g).map (fun u => 1 / Real.log 10 * u) ∧
    (data g).length = 5 ∧
    (data g).drop 3 = [log_UV_unc g, log_IR_unc g] := by
  exact ⟨rfl, rfl, rfl, rfl⟩

/-- Folding list append over a list of blocks concatenates the blocks in
order (the np.append accumulation loop in plot). -/
theorem foldl_append_flatten {α : Type} (f : α → List ℝ) :
    ∀ (gs : List α) (init : List ℝ),
      gs.foldl (fun acc g => acc ++ f g) init = init ++ (gs.map f).flatten
  | [], init => by simp
  | g :: gs, init => by
    simp only [List.foldl_cons, List.map_cons, List.flatten_cons]
    rw [foldl_append_flatten f gs (init ++ f g), List.append_assoc]

/-- The x accumulator of plot: x = np.append(x, data(i)[0]) over galaxies. -/
def plot_x (gs : List GalaxyFiles) : List ℝ :=
  gs.foldl (fun acc g => acc ++ (data g).getD 0 []) []

/-- The y accumulator of plot: y = np.append(y, data(i)[1]) over galaxies. -/
def plot_y (gs : List GalaxyFiles) : List ℝ :=
  gs.foldl (fun acc g => acc ++ (data g).getD 1 []) []

/-- The r accumulator of plot: r = np.append(r, data(i)[2]) over galaxies. -/
def plot_rad (gs : List GalaxyFiles) : List ℝ :=
  gs.foldl (fun acc g => acc ++ (data g).getD 2 []) []

/-- r1 = corr_coeff(np.log10(x), np.log10(y)) (the numeric coefficient;
the script wraps it in the string 'r = ...'). -/
def plot_r1 (gs : List GalaxyFiles) : ℝ :=
  corr_coeff ((plot_x gs).map log10) ((plot_y gs).map log10)

/-- r2 = corr_coeff(r, np.log10(y/x)) with the elementwise quotient y/x
rendered as a zip. -/
def plot_r2 (gs : List GalaxyFiles) : ℝ :=
  corr_coeff (plot_rad gs)
    (((plot_y gs).zip (plot_x gs)).map (fun p => log10 (p.1 / p.2)))

/-- C7: both reported coefficients are computed over the data of all the
listed galaxies pooled in list order: r1 over log10(UV flux) vs
log10(IR flux), r2 over radius vs log10(IR flux / UV flux). -/
theorem pooled_correlations (gs : List GalaxyFiles) :
    plot_r1 gs =
      corr_coeff ((gs.map uv_flux).flatten.map log10)
        ((gs.map ir_flux).flatten.map log10) ∧
    plot_r2 gs =
      corr_coeff ((gs.map radii).flatten)
        (((gs.map ir_flux).flatten.zip ((gs.map uv_flux).flatten)).map
          (fun p => log10 (p.1 / p.2))) := by
  have hx : plot_x gs = (gs.map uv_flux).flatten := by
    rw [plot_x, foldl_append_flatten]
    simp [data]
  have hy : plot_y gs = (gs.map ir_flux).flatten := by
    rw [plot_y, foldl_append_flatten]
    simp [data]
  have hr : plot_rad gs = (gs.map radii).flatten := by
    rw [plot_rad, foldl_append_flatten]
    simp [data]
  exact ⟨by rw [plot_r1, hx, hy], by rw [plot_r2, hx, hy, hr]⟩

/-- C8: corr_coeff is symmetric in its two arguments. -/
theorem corr_coeff_symm (xs ys : List ℝ) (_h : xs.length = ys.length) :
    corr_coeff xs ys = corr_coeff ys xs := by
  have htop : corr_top ys xs = corr_top xs ys := by
    rw [corr_top, corr_top, ← List.zip_swap xs ys, List.map_map]
    congr 1
    apply List.map_congr_left
    intro p _
    simp only [Function.comp_apply, Prod.fst_swap, Prod.snd_swap]
    ring
  have hbot : corr_bottom ys xs = corr_bottom xs ys := by
    rw [corr_bottom, corr_bottom, mul_comm]
  rw [corr_coeff, corr_coeff, htop, hbot]

/-- C8 witness at a concrete pair of length-2 arrays. -/
theorem corr_coeff_symm_witness :
    corr_coeff [(1 : ℝ), 2] [3, 5] = corr_coeff [(3 : ℝ), 5] [1, 2] :=
  corr_coeff_symm [(1 : ℝ), 2] [3, 5] rfl

/-- A list of nonnegative reals with a positive member has positive sum. -/
theorem list_sum_pos_of_nonneg_of_pos :
    ∀ l : List ℝ, (∀ x ∈ l, 0 ≤ x) → (∃ x ∈ l, 0 < x) → 0 < l.sum
  | [], _, hex => by simp at hex
  | a :: l, hall, hex => by
    rw [List.sum_cons]
    have ha : 0 ≤ a := hall a (List.mem_cons_self a l)
    have hl : 0 ≤ l.sum :=
      List.sum_nonneg (fun x hx => hall x (List.mem_cons_of_mem a hx))
    rcases hex with ⟨x, hx, hxpos⟩
    rcases List.mem_cons.mp hx with rfl | hxl
    · exact add_pos_of_pos_of_nonneg hxpos hl
    · exact add_pos_of_nonneg_of_pos ha
        (list_sum_pos_of_nonneg_of_pos l
          (fun y hy => hall y (List.mem_cons_of_mem a hy)) ⟨x, hxl, hxpos⟩)

/-- A non-constant list has positive sum of squared deviations from any
center m. -/
theorem sq_dev_sum_pos (xs : List ℝ) (m : ℝ)
    (hne : ∃ a ∈ xs, ∃ b ∈ xs, a ≠ b) :
    0 < (xs.map (fun a => (a - m) ^ 2)).sum := by
  obtain ⟨a, ha, b, hb, hab⟩ := hne
  apply list_sum_pos_of_nonneg_of_pos
  · intro x hx
    obtain ⟨y, _, rfl⟩ := List.mem_map.mp hx
    positivity
  · rcases eq_or_ne a m with rfl | ham
    · refine ⟨(b - a) ^ 2, List.mem_map_of_mem _ hb, ?_⟩
      exact sq_pos_of_ne_zero (sub_ne_zero.mpr (Ne.symm hab))
    · refine ⟨(a - m) ^ 2, List.mem_map_of_mem _ ha, ?_⟩
      exact sq_pos_of_ne_zero (sub_ne_zero.mpr ham)

/-- C9: under the precondition that both arrays are non-empty and neither
is constant, every divisor inside corr_coeff is non-zero: the two lengths
used by the mean computations, and the denominator
sqrt(sum((x-xmean)^2)*sum((y-ymean)^2)). -/
theorem corr_coeff_divisions_nonzero (xs ys : List ℝ)
    (hx : xs ≠ []) (hy : ys ≠ [])
    (hxnc : ∃ a ∈ xs, ∃ b ∈ xs, a ≠ b)
    (hync : ∃ a ∈ ys, ∃ b ∈ ys, a ≠ b) :
    (xs.length : ℝ) ≠ 0 ∧ (ys.length : ℝ) ≠ 0 ∧ corr_bottom xs ys ≠ 0 := by
  refine ⟨?_, ?_, ?_⟩
  · exact Nat.cast_ne_zero.mpr (fun h => hx (List.eq_nil_of_length_eq_zero h))
  · exact Nat.cast_ne_zero.mpr (fun h => hy (List.eq_nil_of_length_eq_zero h))
  · rw [corr_bottom]
    exact (Real.sqrt_pos.mpr
      (mul_pos (sq_dev_sum_pos xs (mean xs) hxnc)
        (sq_dev_sum_pos ys (mean ys) hync))).ne'

/-- C9 witness at a concrete pair of non-constant length-2 arrays. -/
theorem corr_coeff_divisions_nonzero_witness :
    (([(0 : ℝ), 1]).length : ℝ) ≠ 0 ∧ (([(0 : ℝ), 2]).length : ℝ) ≠ 0 ∧
      corr_bottom [(0 : ℝ), 1] [(0 : ℝ), 2] ≠ 0 :=
  corr_coeff_divisions_nonzero [(0 : ℝ), 1] [(0 : ℝ), 2]
    (by simp) (by simp)
    ⟨0, by simp, 1, by simp, by norm_num⟩
    ⟨0, by simp, 2, by simp, by norm_num⟩

/-- The reporting side effects of plot: which coefficient (if any) each
plot's legend shows, and which (if any) is printed to the console.  The
script embeds the numbers in strings 'r = ...'; we track the numbers. -/
structure PlotEffects where
  legend1 : Option ℝ
  printed1 : Option ℝ
  legend2 : Option ℝ
  printed2 : Option ℝ

/-- Python truthiness of the colours argument: None and the empty list are
falsy. -/
def truthy (colours : Option (List String)) : Bool :=
  match colours with
  | none => false
  | some cs => !cs.isEmpty

/-- The reporting behavior of plot(galaxies, colours).  With colours
truthy, both branches print (lines 129 and 149); otherwise both call
plt.legend, the first with [r1] (line 131) and the second also with [r1]
(line 151). -/
def plot_effects (gs : List GalaxyFiles) (colours : Option (List String)) :
    PlotEffects :=
  if truthy colours = true then
    { legend1 := none, printed1 := some (plot_r1 gs),
      legend2 := none, printed2 := some (plot_r2 gs) }
  else
    { legend1 := some (plot_r1 gs), printed1 := none,
      legend2 := some (plot_r1 gs), printed2 := none }

/-- C2 (observed behavior): without colours, the first plot's legend shows
r1 but the second plot's legend also shows r1 (the first plot's
coefficient), not r2; with colours supplied, the console gets r1 for the
first graph and r2 for the second. -/
theorem plot_effects_behavior (gs : List GalaxyFiles) :
    (plot_effects gs none).legend1 = some (plot_r1 gs) ∧
    (plot_effects gs none).legend2 = some (plot_r1 gs) ∧
    (plot_effects gs none).printed2 = none ∧
    (plot_effects gs (some [""])).printed1 = some (plot_r1 gs) ∧
    (plot_effects gs (some [""])).printed2 = some (plot_r2 gs) :=
  ⟨rfl, rfl, rfl, rfl, rfl⟩

/-- Two galaxy inputs that agree everywhere except possibly in the
standard-deviation columns (columns 1 and 3) of the background
Stdev_mean table. -/
def sameButStdev (g g' : GalaxyFiles) : Prop :=
  g.emission = g'.emission ∧
  g.stdevs.map StdevRow.meanUV = g'.stdevs.map StdevRow.meanUV ∧
  g.stdevs.map StdevRow.meanIR = g'.stdevs.map StdevRow.meanIR

/-- The three data columns plot consumes are unaffected by the
standard-deviation columns of the background file. -/
theorem components_eq_of_sameButStdev {g g' : GalaxyFiles}
    (h : sameButStdev g g') :
    uv_flux g = uv_flux g' ∧ ir_flux g = ir_flux g' ∧
      radii g = radii g' := by
  obtain ⟨he, hu, hi⟩ := h
  have hbu : UV_bckg_mean g.stdevs = UV_bckg_mean g'.stdevs := by
    rw [UV_bckg_mean, UV_bckg_mean, hu]
  have hbi : IR_bckg_mean g.stdevs = IR_bckg_mean g'.stdevs := by
    rw [IR_bckg_mean, IR_bckg_mean, hi]
  refine ⟨?_, ?_, ?_⟩
  · rw [uv_flux, uv_flux, uv_subtracted, uv_subtracted, he, hbu]
  · rw [ir_flux, ir_flux, ir_subtracted, ir_subtracted, he, hbi]
  · rw [radii, radii, he]

/-- Mapping a function that respects a relation over two pointwise-related
lists gives the same list. -/
theorem map_eq_of_forall₂ {α β : Type} {R : α → α → Prop} (f : α → β)
    (hf : ∀ a b, R a b → f a = f b) :
    ∀ {l l' : List α}, List.Forall₂ R l l' → l.map f = l'.map f := by
  intro l l' h
  induction h with
  | nil => rfl
  | cons h₁ _ ih => rw [List.map_cons, List.map_cons, hf _ _ h₁, ih]

/-- The per-galaxy point coordinates of the first scatter plot:
(np.log10(data(i)[0]), np.log10(data(i)[1])) for each galaxy i. -/
def scatter1 (gs : List GalaxyFiles) : List (List ℝ × List ℝ) :=
  gs.map (fun g =>
    (((data g).getD 0 []).map log10, ((data g).getD 1 []).map log10))

/-- The per-galaxy point coordinates of the second scatter plot:
(data(i)[2], np.log10(data(i)[1]/data(i)[0])) for each galaxy i. -/
def scatter2 (gs : List GalaxyFiles) : List (List ℝ × List ℝ) :=
  gs.map (fun g =>
    ((data g).getD 2 [],
      (((data g).getD 1 []).zip ((data g).getD 0 [])).map
        (fun p => log10 (p.1 / p.2))))

/-- The x accumulator equals the UV flux columns concatenated in list
order. -/
theorem plot_x_eq (gs : List GalaxyFiles) :
    plot_x gs = (gs.map uv_flux).flatten := by
  rw [plot_x, foldl_append_flatten]
  simp [data]

/-- The y accumulator equals the IR flux columns concatenated in list
order. -/
theorem plot_y_eq (gs : List GalaxyFiles) :
    plot_y gs = (gs.map ir_flux).flatten := by
  rw [plot_y, foldl_append_flatten]
  simp [data]

/-- The r accumulator equals the radius columns concatenated in list
order. -/
theorem plot_rad_eq (gs : List GalaxyFiles) :
    plot_rad gs = (gs.map radii).flatten := by
  rw [plot_rad, foldl_append_flatten]
  simp [data]

/-- C10: the plotted point coordinates and both correlation coefficients
are unchanged when only the standard-deviation columns of the background
file change: the uncertainties data propagates from them are never used
by plot. -/
theorem stdev_noninterference (gs gs' : List GalaxyFiles)
    (h : List.Forall₂ sameButStdev gs gs') :
    scatter1 gs = scatter1 gs' ∧ scatter2 gs = scatter2 gs' ∧
      plot_r1 gs = plot_r1 gs' ∧ plot_r2 gs = plot_r2 gs' := by
  have huv : gs.map uv_flux = gs'.map uv_flux :=
    map_eq_of_forall₂ uv_flux
      (fun a b hab => (components_eq_of_sameButStdev hab).1) h
  have hir : gs.map ir_flux = gs'.map ir_flux :=
    map_eq_of_forall₂ ir_flux
      (fun a b hab => (components_eq_of_sameButStdev hab).2.1) h
  have hrad : gs.map radii = gs'.map radii :=
    map_eq_of_forall₂ radii
      (fun a b hab => (components_eq_of_sameButStdev hab).2.2) h
  refine ⟨?_, ?_, ?_, ?_⟩
  · exact map_eq_of_forall₂ _
      (fun a b hab => by
        obtain ⟨h0, h1, _⟩ := components_eq_of_sameButStdev hab
        show ((uv_flux a).map log10, (ir_flux a).map log10) =
          ((uv_flux b).map log10, (ir_flux b).map log10)
        rw [h0, h1]) h
  · exact map_eq_of_forall₂ _
      (fun a b hab => by
        obtain ⟨h0, h1, h2⟩ := components_eq_of_sameButStdev hab
        show (radii a,
            ((ir_flux a).zip (uv_flux a)).map (fun p => log10 (p.1 / p.2))) =
          (radii b,
            ((ir_flux b).zip (uv_flux b)).map (fun p => log10 (p.1 / p.2)))
        rw [h0, h1, h2]) h
  · rw [plot_r1, plot_r1, plot_x_eq, plot_x_eq, plot_y_eq, plot_y_eq,
      huv, hir]
  · rw [plot_r2, plot_r2, plot_x_eq, plot_x_eq, plot_y_eq, plot_y_eq,
      plot_rad_eq, plot_rad_eq, huv, hir, hrad]

/-- A concrete galaxy input for the noninterference witness. -/
def gA : GalaxyFiles :=
  ⟨[⟨0, 0, 10, 4, 20, 9, 3⟩], [⟨1, 0.5, 2, 0.7⟩]⟩

/-- The same galaxy input with different background standard deviations. -/
def gB : GalaxyFiles :=
  ⟨[⟨0, 0, 10, 4, 20, 9, 3⟩], [⟨1, 9.5, 2, 8.7⟩]⟩

/-- C10 witness at the concrete pair gA, gB. -/
theorem stdev_noninterference_witness :
    scatter1 [gA] = scatter1 [gB] ∧ scatter2 [gA] = scatter2 [gB] ∧
      plot_r1 [gA] = plot_r1 [gB] ∧ plot_r2 [gA] = plot_r2 [gB] :=
  stdev_noninterference [gA] [gB]
    (List.Forall₂.cons ⟨rfl, rfl, rfl⟩ List.Forall₂.nil)

end

end GalaxyEmission
